import Mathlib

/-!
Verification development for the song-downloader service (src/src/main.py and
src/src/download_spotify_song_simple.py).

The Python source is shallowly embedded: each Python function relevant to the
claims is translated to an executable Lean definition.  Python string
primitives (`split`, `strip`, `lower`, `in`, `join`, percent-quoting) are
implemented over `List Char` with structural recursion so that every
definition evaluates inside the kernel.  External effects (network calls, the
yt-dlp library, the filesystem, wall-clock timeouts) are modelled by explicit
environment records supplying each effectful step's outcome, and the pipeline
threads an explicit trace recording the observable side effects (workspace
creation/removal, resolver network calls, the resolved track record).
-/

namespace SongDL

/-! ### Python string primitives -/

/-- Membership of a character in Python's default `str.strip()` whitespace set
(restricted to ASCII). -/
def isPySpace (c : Char) : Bool :=
  c.toNat = 32 || c.toNat = 9 || c.toNat = 10 || c.toNat = 13 ||
    c.toNat = 11 || c.toNat = 12

/-- Python `s.strip()`. -/
def pyTrim (s : String) : String :=
  String.mk (((s.data.dropWhile isPySpace).reverse.dropWhile isPySpace).reverse)

/-- `p` is a prefix of `s` (as character lists). -/
def isPrefixL : List Char → List Char → Bool
  | [], _ => true
  | _ :: _, [] => false
  | a :: as, b :: bs => (a == b) && isPrefixL as bs

/-- Split at the leftmost occurrence of `sep`: the part before it and the part
after it, or `none` when `sep` does not occur. -/
def splitFirstL (sep : List Char) : List Char → Option (List Char × List Char)
  | [] => if sep.isEmpty then some ([], []) else none
  | c :: cs =>
    if isPrefixL sep (c :: cs) then some ([], (c :: cs).drop sep.length)
    else
      match splitFirstL sep cs with
      | some (pre, post) => some (c :: pre, post)
      | none => none

/-- Leftmost non-overlapping splitting, driven by fuel (any fuel of at least
the string length is enough for a nonempty separator). -/
def splitOnFuelL (sep : List Char) : Nat → List Char → List (List Char)
  | 0, s => [s]
  | fuel + 1, s =>
    match splitFirstL sep s with
    | none => [s]
    | some (pre, post) => pre :: splitOnFuelL sep fuel post

/-- Python `s.split(sep)` for a nonempty separator. -/
def pySplit (s sep : String) : List String :=
  (splitOnFuelL sep.data (s.data.length + 1) s.data).map String.mk

/-- Python `sub in s`. -/
def pyContains (s sub : String) : Bool :=
  (splitFirstL sub.data s.data).isSome

/-- ASCII lower-casing of one character. -/
def asciiLower (c : Char) : Char :=
  if 65 ≤ c.toNat && c.toNat ≤ 90 then Char.ofNat (c.toNat + 32) else c

/-- Python `s.lower()` (ASCII). -/
def pyLower (s : String) : String :=
  String.mk (s.data.map asciiLower)

/-- Python `s.startswith(p)`. -/
def pyStartsWith (s p : String) : Bool :=
  isPrefixL p.data s.data

/-- Python `s.endswith(p)`. -/
def pyEndsWith (s p : String) : Bool :=
  isPrefixL p.data.reverse s.data.reverse

/-- Python `sep.join(xs)`. -/
def pyJoin (sep : String) : List String → String
  | [] => ""
  | [x] => x
  | x :: y :: xs => x ++ sep ++ pyJoin sep (y :: xs)

/-- Python `s.strip(c)` for one character: remove all leading and trailing
occurrences of `c`. -/
def stripChar (c : Char) (s : String) : String :=
  String.mk (((s.data.dropWhile (· == c)).reverse.dropWhile (· == c)).reverse)

/-- Python `os.path.splitext(name)[1]` / `pathlib.Path(name).suffix`: the final
dot-extension including the dot, empty when there is no dot or the name is a
bare leading-dot name such as `.bashrc`. -/
def pySuffix (name : String) : String :=
  match pySplit name "." with
  | [] => ""
  | [_] => ""
  | p :: rest =>
    if p = "" && rest.length = 1 then ""
    else "." ++ (p :: rest).getLastD ""

/-- Python `str(n)` for a natural number, via fuelled digit extraction. -/
def natDigitsAux : Nat → Nat → List Char → List Char
  | 0, _, acc => acc
  | fuel + 1, n, acc =>
    let d := Char.ofNat (48 + n % 10)
    if n < 10 then d :: acc else natDigitsAux fuel (n / 10) (d :: acc)

/-- Decimal rendering of a natural number. -/
def pyStr (n : Nat) : String :=
  String.mk (natDigitsAux (n + 1) n [])

/-- Upper-case hexadecimal digit. -/
def hexUpper (n : Nat) : Char :=
  if n < 10 then Char.ofNat (48 + n) else Char.ofNat (55 + n)

/-- UTF-8 encoding of one character as byte values. -/
def utf8Bytes (c : Char) : List Nat :=
  let n := c.toNat
  if n < 128 then [n]
  else if n < 2048 then [192 + n / 64, 128 + n % 64]
  else if n < 65536 then [224 + n / 4096, 128 + (n / 64) % 64, 128 + n % 64]
  else [240 + n / 262144, 128 + (n / 4096) % 64, 128 + (n / 64) % 64, 128 + n % 64]

/-- Characters `urllib.parse.quote` leaves unescaped (default `safe` is `/`). -/
def isQuoteSafe (c : Char) : Bool :=
  (48 ≤ c.toNat && c.toNat ≤ 57) || (65 ≤ c.toNat && c.toNat ≤ 90) ||
    (97 ≤ c.toNat && c.toNat ≤ 122) ||
    c == '_' || c == '.' || c == '~' || c == '-' || c == '/'

/-- Python `urllib.parse.quote(s)`. -/
def pyQuote (s : String) : String :=
  String.mk (s.data.foldr
    (fun c acc =>
      if isQuoteSafe c then c :: acc
      else (utf8Bytes c).foldr
        (fun b acc2 => '%' :: hexUpper (b / 16) :: hexUpper (b % 16) :: acc2) acc)
    [])

/-- Python `s.encode('ascii', 'ignore').decode('ascii')` under the guard used
in main.py lines 596-600: applied only when some character is non-ASCII. -/
def asciiIgnore (s : String) : String :=
  if s.data.any (fun c => c.toNat > 127) then
    String.mk (s.data.filter (fun c => c.toNat ≤ 127))
  else s

/-! ### Data model (main.py) -/

/-- The nested frontend `metadata` dict of a request body, restricted to the
keys the code reads (`name`, `artist`, `searchQuery`); an absent key is `none`. -/
structure MetaObj where
  name : Option String
  artist : Option String
  searchQuery : Option String
deriving DecidableEq

/-- Python truthiness of an `Optional[str]`: `None` and `""` are falsy. -/
def truthy : Option String → Bool
  | none => false
  | some s => s != ""

/-- Python `a or b` on `Optional[str]` values: `a` when truthy, else `b`. -/
def pyOr (a b : Option String) : Option String :=
  if truthy a then a else b

/-- Python `a or d` where `d` is a plain string default. -/
def pyOrStr (a : Option String) (d : String) : String :=
  if truthy a then a.getD "" else d

/-- `DownloadRequest` (main.py): the request body with all its alias fields. -/
structure DownloadRequest where
  spotify_url : Option String := none
  song_url : Option String := none
  url : Option String := none
  trackUrl : Option String := none
  trackId : Option String := none
  use_consistent_naming : Bool := false
  title : Option String := none
  track_name : Option String := none
  artist : Option String := none
  artist_name : Option String := none
  album : Option String := none
  duration : Option String := none
  track_id : Option String := none
  search_query : Option String := none
  metadata : Option MetaObj := none
deriving DecidableEq

/-- `TrackInfo` (main.py). -/
structure TrackInfo where
  name : String
  artists : List String
  search_query : String
  album : Option String := none
  duration : Option String := none
deriving DecidableEq

/-- `DownloadResult` (main.py). -/
structure DownloadResult where
  success : Bool
  file_path : Option String := none
  file_name : Option String := none
  file_size : Option Nat := none
  content_type : Option String := none
  error : Option String := none
deriving DecidableEq

/-- `DownloadRequest.get_spotify_url`: first truthy URL alias, else a URL
constructed from `trackId` when that is truthy. -/
def get_spotify_url (r : DownloadRequest) : Option String :=
  let url := pyOr (pyOr (pyOr r.spotify_url r.song_url) r.url) r.trackUrl
  if !truthy url && truthy r.trackId then
    some ("https://open.spotify.com/track/" ++ r.trackId.getD "")
  else url

/-- `DownloadRequest.get_track_name`: nested metadata `name` first (when the
metadata object is present and the value truthy), then `title`, then
`track_name`, then the sentinel `"Unknown"`. -/
def get_track_name (r : DownloadRequest) : String :=
  match r.metadata with
  | some m =>
    if truthy m.name then m.name.getD ""
    else pyOrStr r.title (pyOrStr r.track_name "Unknown")
  | none => pyOrStr r.title (pyOrStr r.track_name "Unknown")

/-- `DownloadRequest.get_artist_name`: nested metadata `artist` first, then
`artist`, then `artist_name`, then the sentinel `"Unknown Artist"`. -/
def get_artist_name (r : DownloadRequest) : String :=
  match r.metadata with
  | some m =>
    if truthy m.artist then m.artist.getD ""
    else pyOrStr r.artist (pyOrStr r.artist_name "Unknown Artist")
  | none => pyOrStr r.artist (pyOrStr r.artist_name "Unknown Artist")

/-- `DownloadRequest.get_search_query`: nested metadata `searchQuery` first,
then the explicit `search_query` field, then the constructed
`"{track} {artist}"` form where a comma-separated artist string is cut at its
first comma. -/
def get_search_query (r : DownloadRequest) : String :=
  if (match r.metadata with | some m => truthy m.searchQuery | none => false) then
    (r.metadata.bind MetaObj.searchQuery).getD ""
  else if truthy r.search_query then r.search_query.getD ""
  else
    let track := get_track_name r
    let artist := get_artist_name r
    let artist2 :=
      if artist != "" && pyContains artist "," then
        pyTrim ((pySplit artist ",").getD 0 "")
      else artist
    pyTrim (track ++ " " ++ artist2)

/-- The endpoint's completeness judgement on caller metadata (main.py line
521): both sentinels absent, compared by exact string equality. -/
def hasMetadata (r : DownloadRequest) : Bool :=
  (get_track_name r != "Unknown") && (get_artist_name r != "Unknown Artist")

/-- The artist-splitting step of the metadata branch (main.py line 545): a
comma-separated artist string becomes the list of stripped segments. -/
def callerArtists (r : DownloadRequest) : List String :=
  let an := get_artist_name r
  if pyContains an "," then (pySplit an ",").map pyTrim else [an]

/-- The `TrackInfo` built directly from caller data in the metadata branch
(main.py lines 547-553). -/
def callerTrackInfo (r : DownloadRequest) : TrackInfo :=
  { name := get_track_name r
  , artists := callerArtists r
  , search_query := get_search_query r
  , album := r.album
  , duration := r.duration }

/-! ### Metadata extraction (SpotifyTrackExtractor, main.py) -/

/-- The JSON payload of a successful (HTTP 200, no `error` field) response of
the primary metadata API, restricted to the keys the code reads; an absent key
is `none`. -/
structure ApiData where
  name : Option String := none
  artists : Option (List String) := none
  searchQuery : Option String := none
deriving DecidableEq

/-- `SpotifyTrackExtractor.extract_from_api` (main.py lines 186-220), as a
function of the already-modelled network outcome: `none` stands for any
network error, timeout, non-200 status or an `error` field in the payload (all
swallowed and turned into `None` by the code).  On data, the `TrackInfo` is
built with defaulted name/artists and a search query defaulted to
`"{name} {artists[0]}"`; an empty present `artists` list makes that indexing
raise, which the surrounding `except` turns into `None`. -/
def extract_from_api (net : Option ApiData) : Option TrackInfo :=
  match net with
  | none => none
  | some d =>
    match d.searchQuery with
    | some q =>
      some { name := d.name.getD "Unknown", artists := d.artists.getD ["Unknown Artist"]
           , search_query := q }
    | none =>
      match d.artists.getD ["Unknown"] with
      | [] => none
      | a :: _ =>
        some { name := d.name.getD "Unknown", artists := d.artists.getD ["Unknown Artist"]
             , search_query := d.name.getD "Unknown" ++ " " ++ a }

/-- Track-id extraction from a Spotify URL (main.py lines 225-231):
`url.split("/track/")[1].split("?")[0]` or `url.split("spotify:track:")[1]`. -/
def extractTrackId (url : String) : Option String :=
  if pyContains url "/track/" then
    some ((pySplit ((pySplit url "/track/").getD 1 "") "?").getD 0 "")
  else if pyContains url "spotify:track:" then
    some ((pySplit url "spotify:track:").getD 1 "")
  else none

/-- The name-sentinel normalization (main.py line 264): keep the name unless
it is `"unknown"` case-insensitively. -/
def normName (n : String) : String :=
  if pyLower n != "unknown" then n else "Unknown"

/-- The artist-sentinel normalization (main.py line 265): keep the artist
unless it is, case-insensitively, `"unknown artist"`, `"unknown"` or empty. -/
def normArtist (a : String) : String :=
  if !(pyLower a == "unknown artist" || pyLower a == "unknown" || pyLower a == "") then a
  else "Unknown Artist"

/-- Both sentinel normalizations applied to a parsed (name, artist) pair. -/
def normPair (p : String × String) : String × String :=
  (normName p.1, normArtist p.2)

/-- The oEmbed display-title parser (main.py lines 242-265): strip the title,
try the separators in order, and normalize the sentinels case-insensitively at
the end. -/
def parseOembedTitle (raw : String) : String × String :=
  let title := pyTrim raw
  normPair
    (if title != "" then
      if pyContains title " · " then
        let parts := pySplit title " · "
        (parts.getD 0 "", if parts.length > 1 then parts.getD 1 "" else "Unknown Artist")
      else if pyContains title "\" - " then
        let parts := pySplit title "\" - "
        (stripChar '"' (parts.getD 0 ""),
         if parts.length > 1 then parts.getD 1 "" else "Unknown Artist")
      else if pyContains title " - " then
        let parts := pySplit title " - "
        (parts.getD 0 "", if parts.length > 1 then parts.getD 1 "" else "Unknown Artist")
      else if pyContains title " by " then
        let parts := pySplit title " by "
        (parts.getD 0 "", if parts.length > 1 then parts.getD 1 "" else "Unknown Artist")
      else (title, "Unknown Artist")
    else ("Unknown", "Unknown Artist"))

/-- `SpotifyTrackExtractor.extract_from_oembed` (main.py lines 222-274).
`netTitle` is the modelled oEmbed network outcome: `none` for any network
failure (swallowed into `None` by the code), `some t` for a 200 response whose
payload's `title` (defaulted to `""`) is `t`. -/
def extract_from_oembed (netTitle : Option String) (spotify_url : String) :
    Option TrackInfo :=
  match extractTrackId spotify_url with
  | none => none
  | some tid =>
    if tid == "" then none
    else
      match netTitle with
      | none => none
      | some t =>
        let p := parseOembedTitle t
        some { name := p.1, artists := [p.2], search_query := p.1 ++ " " ++ p.2 }

/-! ### Spec-worded definitions for the claims about query precedence (C3)
and the title parser (C4).  These follow the specification text, to be
compared with the definitions translated from the code. -/

/-- First truthy entry of a list of optional strings. -/
def firstTruthy (xs : List (Option String)) : Option String :=
  xs.findSome? (fun x => if truthy x then x else none)

/-- The constructed search query of spec §4.2: `"{name} {first_artist}"`,
cutting a comma-separated artist string at its first comma. -/
def constructedQuery (r : DownloadRequest) : String :=
  let track := get_track_name r
  let artist := get_artist_name r
  let firstArtist :=
    if artist != "" && pyContains artist "," then
      pyTrim ((pySplit artist ",").getD 0 "")
    else artist
  pyTrim (track ++ " " ++ firstArtist)

/-- Query selection with the precedence the claim C3 states: explicit
caller-supplied `search_query` first, then the nested metadata `searchQuery`,
then the constructed form. -/
def claimQuerySpec (r : DownloadRequest) : String :=
  match firstTruthy [r.search_query, r.metadata.bind MetaObj.searchQuery] with
  | some q => q
  | none => constructedQuery r

/-- Query selection with the precedence the code actually implements: nested
metadata `searchQuery` first, then the explicit `search_query` field, then the
constructed form. -/
def amendedQuerySpec (r : DownloadRequest) : String :=
  match firstTruthy [r.metadata.bind MetaObj.searchQuery, r.search_query] with
  | some q => q
  | none => constructedQuery r

/-- The ordered separator table of the oEmbed title parser, each with the
post-processing applied to the name part (the quoted form strips quotes). -/
def sepRules : List (String × (String → String)) :=
  [(" · ", fun n => n), ("\" - ", stripChar '"'), (" - ", fun n => n),
   (" by ", fun n => n)]

/-- First matching separator rule splits the title into name and artist. -/
def firstSepSplit : List (String × (String → String)) → String →
    Option (String × String)
  | [], _ => none
  | (sep, post) :: rest, t =>
    if pyContains t sep then
      let parts := pySplit t sep
      some (post (parts.getD 0 ""),
        if parts.length > 1 then parts.getD 1 "" else "Unknown Artist")
    else firstSepSplit rest t

/-- The title parser exactly as claim C4 states it: separators tried in order
on the given display title; when none matches, the whole title is the name and
the artist is the sentinel; sentinels normalized case-insensitively. -/
def claimOembedSpec (t : String) : String × String :=
  normPair ((firstSepSplit sepRules t).getD (t, "Unknown Artist"))

/-- The amended title parser: the display title is whitespace-trimmed first
and an empty trimmed title yields the sentinel name `"Unknown"`; otherwise
exactly as the claim states. -/
def amendedOembedSpec (raw : String) : String × String :=
  let t := pyTrim raw
  if t = "" then ("Unknown", "Unknown Artist")
  else normPair ((firstSepSplit sepRules t).getD (t, "Unknown Artist"))

/-! ### Download engine (YtDlpDownloader, main.py) -/

/-- A file materialized in the workspace directory. -/
structure DlFile where
  name : String
  size : Nat
deriving DecidableEq

/-- The exception classes distinguished by `download_audio`'s handlers. -/
inductive DlExc where
  | downloadError (msg : String)
  | extractorError (msg : String)
  | otherExc (msg : String)
deriving DecidableEq

/-- The outcome of one `ydl.download` call inside the format loop: it either
raises (having possibly left new files in the workspace, all deleted by the
handler) or completes, leaving new files in the workspace. -/
inductive AttemptOutcome where
  | raises (e : DlExc) (newFiles : List DlFile)
  | completes (newFiles : List DlFile)
deriving DecidableEq

/-- Whether an attempt outcome is an exception. -/
def attemptRaises : AttemptOutcome → Bool
  | .raises _ _ => true
  | .completes _ => false

/-- The audio-extension allowlist of the main downloader (main.py line 367). -/
def audio_extensions : List String :=
  [".m4a", ".webm", ".opus", ".mp3", ".aac", ".mp4"]

/-- `YtDlpDownloader._get_content_type` (main.py lines 490-501). -/
def get_content_type (ext : String) : String :=
  let m := [(".m4a", "audio/mp4"), (".webm", "audio/webm"), (".opus", "audio/opus"),
            (".mp3", "audio/mpeg"), (".aac", "audio/aac"), (".mp4", "audio/mp4")]
  match m.find? (fun p => p.1 == pyLower ext) with
  | some p => p.2
  | none => "audio/octet-stream"

/-- The workspace scan after a completed attempt (main.py lines 366-369):
first file whose lower-cased suffix is in the allowlist. -/
def findAudio (exts : List String) (dir : List DlFile) : Option DlFile :=
  dir.find? (fun f => exts.contains (pyLower (pySuffix f.name)))

/-- The success record built from a found file (main.py lines 371-376). -/
def mkSuccessResult (outputDir : String) (f : DlFile) : DownloadResult :=
  { success := true
  , file_path := some (outputDir ++ "/" ++ f.name)
  , file_name := some f.name
  , file_size := some f.size
  , content_type := some (get_content_type (pySuffix f.name)) }

/-- The ordered format-preference list of `_download` (main.py lines 352-356). -/
def format_attempts : List String :=
  ["bestaudio[ext=m4a]/bestaudio[ext=webm]/bestaudio/best[height<=720]/best",
   "bestaudio/best", "best"]

/-- One row of the attempt trace: the format used and the workspace contents
when the attempt started. -/
structure AttemptTrace where
  fmt : String
  dirAtStart : List DlFile
deriving DecidableEq

/-- The output of the format loop: its result (a success record or the
escaping exception), the per-attempt trace, and the final workspace state. -/
structure RunOut where
  res : Except DlExc DownloadResult
  trace : List AttemptTrace
  dirAfter : List DlFile

/-- The format loop of `_download` (main.py lines 358-393): try each format in
order; on a completed call scan the whole workspace for an audio file and
succeed on the first hit, otherwise move on; on an exception delete every file
in the workspace, then move on — unless this was the last format, in which
case the exception escapes; if every format completes without producing an
audio file, a generic final exception escapes.  `env i` is the outcome of the
attempt with (0-based) index `i`. -/
def runAttempts (env : Nat → AttemptOutcome) (outputDir : String) :
    List String → Nat → List DlFile → RunOut
  | [], _, dir =>
    { res := .error (.otherExc "All format attempts failed - no file downloaded")
    , trace := [], dirAfter := dir }
  | f :: rest, i, dir =>
    match env i with
    | .completes newFiles =>
      let dir2 := dir ++ newFiles
      match findAudio audio_extensions dir2 with
      | some file =>
        { res := .ok (mkSuccessResult outputDir file), trace := [⟨f, dir⟩], dirAfter := dir2 }
      | none =>
        let out := runAttempts env outputDir rest (i + 1) dir2
        { out with trace := ⟨f, dir⟩ :: out.trace }
    | .raises e _ =>
      if rest.isEmpty then { res := .error e, trace := [⟨f, dir⟩], dirAfter := [] }
      else
        let out := runAttempts env outputDir rest (i + 1) []
        { out with trace := ⟨f, dir⟩ :: out.trace }

/-- The audio-extension allowlist of the fallback pass (main.py line 470):
note it lacks `.mp4`. -/
def fallback_extensions : List String :=
  [".m4a", ".webm", ".opus", ".mp3", ".aac"]

/-- The environment of one `download_audio` invocation: the overall wall-clock
timeout verdicts of the two `asyncio.wait_for` calls and the outcomes of the
main-loop attempts and of the single fallback `ydl.download` call. -/
structure DlEnv where
  timedOut : Bool
  attempts : Nat → AttemptOutcome
  fallbackTimedOut : Bool
  fallbackOutcome : AttemptOutcome

/-- `YtDlpDownloader._fallback_download` (main.py lines 435-488) as seen by
its caller: `none` when it raises (its own timeout, a `ydl` exception, or no
audio file found in the workspace), otherwise the success record. -/
def fallbackRun (env : DlEnv) (outputDir : String) (dir : List DlFile) :
    Option DownloadResult :=
  if env.fallbackTimedOut then none
  else
    match env.fallbackOutcome with
    | .raises _ _ => none
    | .completes newFiles =>
      match findAudio fallback_extensions (dir ++ newFiles) with
      | some f => some (mkSuccessResult outputDir f)
      | none => none

/-- `YtDlpDownloader.download_audio` (main.py lines 307-433), returning the
`DownloadResult` together with the number of fallback passes performed.  The
overall 120s timeout yields a failure result; a `DownloadError` whose text
contains `"403"` or `"Forbidden"` triggers exactly one fallback pass whose
success is returned directly and whose failure falls back to the original
error; every other exception class maps straight to a failure result. -/
def download_audio (env : DlEnv) (outputDir : String) (dir : List DlFile) :
    DownloadResult × Nat :=
  if env.timedOut then
    ({ success := false, error := some "Download timed out after 120 seconds" }, 0)
  else
    let out := runAttempts env.attempts outputDir format_attempts 0 dir
    match out.res with
    | .ok r => (r, 0)
    | .error (.downloadError m) =>
      let errMsg := "yt-dlp download error: " ++ m
      if pyContains m "403" || pyContains m "Forbidden" then
        match fallbackRun env outputDir out.dirAfter with
        | some r => (r, 1)
        | none => ({ success := false, error := some errMsg }, 1)
      else ({ success := false, error := some errMsg }, 0)
    | .error (.extractorError m) =>
      ({ success := false, error := some ("yt-dlp extractor error: " ++ m) }, 0)
    | .error (.otherExc m) =>
      ({ success := false, error := some ("Unexpected download error: " ++ m) }, 0)

/-- The distinguished failure class of claim C2: the engine's main pass ended
in a `DownloadError` whose text contains `"403"` or `"Forbidden"` (and the
overall timeout did not fire first). -/
def isForbiddenFailure (env : DlEnv) (outputDir : String) (dir : List DlFile) : Bool :=
  !env.timedOut &&
    (match (runAttempts env.attempts outputDir format_attempts 0 dir).res with
     | .error (.downloadError m) => pyContains m "403" || pyContains m "Forbidden"
     | _ => false)

/-! ### Orchestration pipeline (download_song_frontend, main.py) -/

/-- The exception classes distinguished by the endpoint's handlers. -/
inductive PyExc where
  | httpException (status : Nat) (detail : String)
  | timeoutError
  | otherExc (msg : String)
deriving DecidableEq

/-- A success response: ordered header list, media type, and body length. -/
structure SuccessResp where
  headers : List (String × String)
  mediaType : String
  contentLen : Nat
deriving DecidableEq

/-- The endpoint's observable outcome: a streamed success response or an HTTP
error status with its detail. -/
inductive HttpResult where
  | ok (resp : SuccessResp)
  | err (status : Nat) (detail : String)
deriving DecidableEq

/-- The observable side-effect trace of one pipeline run: whether the
temporary workspace was created, whether it exists once the run is over, how
many resolver network calls were attempted, and the resolved track record. -/
structure Trace where
  workspaceCreated : Bool
  tempDirExists : Bool
  resolveCalls : Nat
  trackInfo : Option TrackInfo
deriving DecidableEq

/-- The environment of one endpoint invocation: the request, the modelled
network outcomes of the two metadata sources, the download-engine environment,
the workspace name, the request id and elapsed-time strings, whether the
downloaded file still exists at response time, an optionally injected
exception while reading the file, and the byte length read. -/
structure PipelineEnv where
  req : DownloadRequest
  apiData : Option ApiData
  oembedTitle : Option String
  dlEnv : DlEnv
  tempDirName : String
  requestId : String
  elapsed : String
  fileStillExists : Bool
  readRaises : Option String
  fileLen : Nat

/-- The number of network calls the oEmbed extractor performs for a given URL:
one when a truthy track id can be extracted, zero otherwise. -/
def oembedCallCount (url : String) : Nat :=
  match extractTrackId url with
  | some tid => if tid == "" then 0 else 1
  | none => 0

/-- The resolution step of the endpoint (main.py lines 540-571): caller
metadata when complete, else the primary API source, else the oEmbed fallback;
paired with the number of resolver network calls attempted. -/
def resolveTrack (env : PipelineEnv) : Option TrackInfo × Nat :=
  if hasMetadata env.req then (some (callerTrackInfo env.req), 0)
  else
    match extract_from_api env.apiData with
    | some ti => (some ti, 1)
    | none =>
      let u := (get_spotify_url env.req).getD ""
      match extract_from_oembed env.oembedTitle u with
      | some ti => (some ti, 1 + oembedCallCount u)
      | none => (none, 1 + oembedCallCount u)

/-- The `Content-Disposition` value (main.py lines 594-604): ASCII-filtered
plain filename plus the RFC 5987 UTF-8 percent-encoded form. -/
def contentDisposition (fileName : String) : String :=
  let apos := String.mk [Char.ofNat 39, Char.ofNat 39]
  "attachment; filename=\"" ++ asciiIgnore fileName ++ "\"; filename*=UTF-8" ++
    apos ++ pyQuote fileName

/-- The response header set (main.py lines 605-617): album and duration
headers are appended only when the corresponding `TrackInfo` field is truthy. -/
def mkHeaders (fileName : String) (ti : TrackInfo) (contentLen : Nat)
    (reqId elapsed : String) : List (String × String) :=
  let base := [("Content-Disposition", contentDisposition fileName),
               ("Content-Length", pyStr contentLen),
               ("X-Track-Name", ti.name),
               ("X-Track-Artist", pyJoin ", " ti.artists),
               ("X-Request-Id", reqId),
               ("X-Download-Time", elapsed)]
  (base ++ (if truthy ti.album then [("X-Track-Album", ti.album.getD "")] else [])) ++
    (if truthy ti.duration then [("X-Track-Duration", ti.duration.getD "")] else [])

/-- The body of `download_song_frontend` (main.py lines 518-631), up to but
not including its exception handlers and `finally` clause: validation, then
workspace creation, then resolution, then download, then the response.  The
returned trace reflects the side effects up to the point the body returned or
an exception escaped. -/
def pipelineBody (env : PipelineEnv) : Except PyExc SuccessResp × Trace :=
  let r := env.req
  if !truthy (get_spotify_url r) && !hasMetadata r then
    (.error (.httpException 400
      "Either Spotify URL/Track ID or complete track metadata (title + artist) is required"),
     ⟨false, false, 0, none⟩)
  else
    match resolveTrack env with
    | (none, calls) =>
      (.error (.httpException 400 "Could not extract track information from Spotify URL"),
       ⟨true, true, calls, none⟩)
    | (some ti, calls) =>
      let tr : Trace := ⟨true, true, calls, some ti⟩
      let dl := (download_audio env.dlEnv env.tempDirName []).1
      if !dl.success then
        (.error (.httpException 500 ("Download failed: " ++ dl.error.getD "None")), tr)
      else if !env.fileStillExists then
        (.error (.httpException 404 "Downloaded file not found"), tr)
      else
        match env.readRaises with
        | some m => (.error (.otherExc m), tr)
        | none =>
          let headers := mkHeaders (dl.file_name.getD "") ti env.fileLen
            env.requestId env.elapsed
          (.ok ⟨headers, dl.content_type.getD "", env.fileLen⟩, tr)

/-- The full endpoint (main.py lines 506-650): run the body, convert an
escaping exception through the `except` chain (`HTTPException` re-raised,
`asyncio.TimeoutError` to 504, anything else to 500), and run the `finally`
cleanup, which removes the workspace whenever it was created and still
exists. -/
def runPipeline (env : PipelineEnv) : HttpResult × Trace :=
  let (body, tr) := pipelineBody env
  let outcome :=
    match body with
    | .ok resp => HttpResult.ok resp
    | .error (.httpException s d) => HttpResult.err s d
    | .error .timeoutError => HttpResult.err 504 "Download operation timed out"
    | .error (.otherExc m) => HttpResult.err 500 ("Unexpected error: " ++ m)
  let tr2 :=
    if tr.workspaceCreated && tr.tempDirExists then { tr with tempDirExists := false }
    else tr
  (outcome, tr2)

/-! ### Consistent-naming rotation (download_with_ytdlp,
download_spotify_song_simple.py lines 167-198) -/

/-- The workspace as a map from file name to (abstract) content. -/
def FS : Type := String → Option Nat

/-- `os.remove`. -/
def fsRemove (st : FS) (n : String) : FS :=
  fun m => if m = n then none else st m

/-- `os.rename src dst` (`dst` was removed beforehand by the code). -/
def fsRename (st : FS) (src dst : String) : FS :=
  fun m => if m = dst then st src else if m = src then none else st m

/-- The audio-extension list of the simple script (line 165). -/
def simpleAudioExts : List String :=
  [".webm", ".m4a", ".opus", ".mp3", ".aac"]

/-- One iteration of the rotation loop (lines 176-186): when `latest<ext>`
exists, remove any `previous<ext>` and rename `latest<ext>` to it. -/
def rotateLatest (st : FS) (ext : String) : FS :=
  if (st ("latest" ++ ext)).isSome then
    fsRename
      (if (st ("previous" ++ ext)).isSome then fsRemove st ("previous" ++ ext) else st)
      ("latest" ++ ext) ("previous" ++ ext)
  else st

/-- The consistent-naming branch after a successful download (lines 167-198):
rotate every extension's `latest` slot to `previous`, then rename the fixed
temporary file to `latest<its ext>`. -/
def consistentRename (st : FS) (tempFile : String) : FS :=
  let fileExt := pySuffix tempFile
  let st1 := simpleAudioExts.foldl rotateLatest st
  fsRename st1 tempFile ("latest" ++ fileExt)

/-! ### Theorems for the claims -/

/-- A request carrying both an explicit `search_query` and a nested metadata
`searchQuery`, used to exhibit which one wins. -/
def c3req : DownloadRequest :=
  { metadata := some { name := none, artist := none, searchQuery := some "M" }
  , search_query := some "S" }

/-- C3, counterexample: on a request with explicit caller query `"S"` and
nested-metadata query `"M"`, the code returns the nested-metadata query — the
claimed precedence (explicit first, as `claimQuerySpec` renders it) gives
`"S"`, so the claim is false as stated. -/
theorem c3_counterexample :
    c3req.search_query = some "S" ∧ get_search_query c3req = "M" ∧
      claimQuerySpec c3req = "S" ∧ get_search_query c3req ≠ claimQuerySpec c3req := by
  refine ⟨rfl, by decide, by decide, by decide⟩

/-- C3, amended: the search query is chosen with precedence nested-metadata
query first, then the explicit caller-supplied query, then the constructed
`"{name} {first_artist}"` form, which cuts a comma-separated artist string at
its first comma — `get_search_query` agrees with `amendedQuerySpec` on every
request. -/
theorem c3_amended (r : DownloadRequest) : get_search_query r = amendedQuerySpec r := by
  rcases hm : r.metadata with _ | m
  · rcases hs : r.search_query with _ | s
    · simp [get_search_query, amendedQuerySpec, firstTruthy, constructedQuery, hm, hs,
        List.findSome?, truthy]
    · by_cases hse : s = "" <;>
        simp [get_search_query, amendedQuerySpec, firstTruthy, constructedQuery, hm, hs, hse,
          List.findSome?, truthy]
  · rcases hq : m.searchQuery with _ | q
    · rcases hs : r.search_query with _ | s
      · simp [get_search_query, amendedQuerySpec, firstTruthy, constructedQuery, hm, hq, hs,
          List.findSome?, truthy]
      · by_cases hse : s = "" <;>
          simp [get_search_query, amendedQuerySpec, firstTruthy, constructedQuery, hm, hq, hs,
            hse, List.findSome?, truthy]
    · by_cases hqe : q = ""
      · rcases hs : r.search_query with _ | s
        · simp [get_search_query, amendedQuerySpec, firstTruthy, constructedQuery, hm, hq, hqe,
            hs, List.findSome?, truthy]
        · by_cases hse : s = "" <;>
            simp [get_search_query, amendedQuerySpec, firstTruthy, constructedQuery, hm, hq,
              hqe, hs, hse, List.findSome?, truthy]
      · simp [get_search_query, amendedQuerySpec, firstTruthy, hm, hq, hqe,
          List.findSome?, truthy]

/-- C4, counterexample: the claimed parser (`claimOembedSpec`, which works on
the raw display title) disagrees with the code on the whitespace-only title
`" X "` (the code trims to `"X"`) and on the empty title (the code yields the
sentinel name `"Unknown"`, not the whole title `""`). -/
theorem c4_counterexample :
    parseOembedTitle " X " = ("X", "Unknown Artist") ∧
      claimOembedSpec " X " = (" X ", "Unknown Artist") ∧
      parseOembedTitle " X " ≠ claimOembedSpec " X " ∧
      parseOembedTitle "" = ("Unknown", "Unknown Artist") ∧
      claimOembedSpec "" = ("", "Unknown Artist") := by
  refine ⟨by decide, by decide, by decide, by decide, by decide⟩

/-- C4, amended: the display title is first whitespace-trimmed and an empty
trimmed title yields the sentinel name `"Unknown"`; otherwise the separators
`" · "`, `'" - '`, `" - "`, `" by "` are tried in that order, the first match
splitting the title into name and artist, no match making the whole (trimmed)
title the name with sentinel artist, and sentinel values are normalized
case-insensitively — `parseOembedTitle` agrees with `amendedOembedSpec` on
every title. -/
theorem c4_amended (t : String) : parseOembedTitle t = amendedOembedSpec t := by
  by_cases h : pyTrim t = ""
  · simp only [parseOembedTitle, amendedOembedSpec, h]
    decide
  · have hb : (pyTrim t != "") = true := by simp [bne_iff_ne, h]
    simp only [parseOembedTitle, amendedOembedSpec, firstSepSplit, sepRules, if_neg h, hb,
      if_true]
    congr 1
    split_ifs <;> simp


/-! ### Structural lemmas about the pipeline -/

lemma runPipeline_snd (env : PipelineEnv) :
    (runPipeline env).2 =
      (if ((pipelineBody env).2.workspaceCreated && (pipelineBody env).2.tempDirExists) = true
       then { (pipelineBody env).2 with tempDirExists := false }
       else (pipelineBody env).2) := by
  unfold runPipeline
  rcases hp : pipelineBody env with ⟨b, tr⟩
  rfl

lemma runPipeline_fst (env : PipelineEnv) :
    (runPipeline env).1 =
      (match (pipelineBody env).1 with
       | .ok resp => HttpResult.ok resp
       | .error (.httpException s d) => HttpResult.err s d
       | .error .timeoutError => HttpResult.err 504 "Download operation timed out"
       | .error (.otherExc m) => HttpResult.err 500 ("Unexpected error: " ++ m)) := by
  unfold runPipeline
  rcases hp : pipelineBody env with ⟨b, tr⟩
  rfl

lemma pipelineBody_trace_resolved (env : PipelineEnv) (ti : TrackInfo) (calls : Nat)
    (hv : (!truthy (get_spotify_url env.req) && !hasMetadata env.req) = false)
    (hres : resolveTrack env = (some ti, calls)) :
    (pipelineBody env).2 = ⟨true, true, calls, some ti⟩ := by
  simp only [pipelineBody, hv, Bool.false_eq_true, if_false, hres]
  split
  · rfl
  · split
    · rfl
    · split <;> rfl

lemma pipelineBody_ok_inv (env : PipelineEnv) (resp : SuccessResp)
    (h : (pipelineBody env).1 = .ok resp) :
    ∃ ti calls, resolveTrack env = (some ti, calls) ∧
      resp.headers = mkHeaders ((download_audio env.dlEnv env.tempDirName []).1.file_name.getD "")
        ti env.fileLen env.requestId env.elapsed := by
  unfold pipelineBody at h
  by_cases hv : (!truthy (get_spotify_url env.req) && !hasMetadata env.req) = true
  · simp [hv] at h
  · simp only [Bool.not_eq_true] at hv
    simp only [hv, Bool.false_eq_true, if_false] at h
    rcases hres : resolveTrack env with ⟨oti, calls⟩
    rcases oti with _ | ti
    · simp only [hres] at h
      simp at h
    · simp only [hres] at h
      refine ⟨ti, calls, rfl, ?_⟩
      by_cases hdl : (!(download_audio env.dlEnv env.tempDirName []).1.success) = true
      · simp [hdl] at h
      · simp only [Bool.not_eq_true'] at hdl
        simp only [hdl, Bool.not_true, Bool.false_eq_true, if_false] at h
        by_cases hfe : (!env.fileStillExists) = true
        · simp [hfe] at h
        · simp only [Bool.not_eq_true'] at hfe
          simp only [hfe, Bool.not_true, Bool.false_eq_true, if_false] at h
          rcases hr : env.readRaises with _ | m <;> simp only [hr] at h
          · injection h with h1
            rw [← h1]
          · simp at h

/-! ### Lemmas about the metadata extractors and headers -/

lemma extract_from_api_no_album (net : Option ApiData) (ti : TrackInfo)
    (h : extract_from_api net = some ti) : ti.album = none ∧ ti.duration = none := by
  rcases net with _ | d
  · simp [extract_from_api] at h
  · unfold extract_from_api at h
    rcases hq : d.searchQuery with _ | q <;> simp only [hq] at h
    · rcases ha : d.artists.getD ["Unknown"] with _ | ⟨a, rest⟩ <;> simp only [ha] at h
      · simp at h
      · injection h with hc
        rw [← hc]
        exact ⟨rfl, rfl⟩
    · injection h with hc
      rw [← hc]
      exact ⟨rfl, rfl⟩

lemma extract_from_oembed_no_album (nt : Option String) (u : String) (ti : TrackInfo)
    (h : extract_from_oembed nt u = some ti) : ti.album = none ∧ ti.duration = none := by
  unfold extract_from_oembed at h
  rcases hid : extractTrackId u with _ | tid <;> simp only [hid] at h
  · simp at h
  · cases he : (tid == "") <;> simp only [he, Bool.false_eq_true, if_false, if_true] at h
    · rcases nt with _ | t
      · simp at h
      · injection h with hc
        rw [← hc]
        exact ⟨rfl, rfl⟩
    · simp at h

lemma resolveTrack_fields (env : PipelineEnv) (ti : TrackInfo) (calls : Nat)
    (h : resolveTrack env = (some ti, calls)) :
    (ti.album = env.req.album ∧ ti.duration = env.req.duration) ∨
      (ti.album = none ∧ ti.duration = none) := by
  unfold resolveTrack at h
  by_cases hm : hasMetadata env.req = true
  · simp only [hm, if_true] at h
    injection h with h1 h2
    injection h1 with h1
    left
    rw [← h1]
    exact ⟨rfl, rfl⟩
  · simp only [Bool.not_eq_true] at hm
    simp only [hm, Bool.false_eq_true, if_false] at h
    rcases ha : extract_from_api env.apiData with _ | ti2 <;> simp only [ha] at h
    · rcases ho : extract_from_oembed env.oembedTitle ((get_spotify_url env.req).getD "")
        with _ | ti3 <;> simp only [ho] at h
      · simp at h
      · injection h with h1 h2
        injection h1 with h1
        right
        rw [← h1]
        exact extract_from_oembed_no_album _ _ _ ho
    · injection h with h1 h2
      injection h1 with h1
      right
      rw [← h1]
      exact extract_from_api_no_album _ _ ha

lemma mkHeaders_album (f : String) (ti : TrackInfo) (n : Nat) (a b : String) :
    (((mkHeaders f ti n a b).map Prod.fst).contains "X-Track-Album") = truthy ti.album := by
  unfold mkHeaders
  cases h1 : truthy ti.album <;> cases h2 : truthy ti.duration <;>
    simp [h1, h2, List.contains]

lemma mkHeaders_duration (f : String) (ti : TrackInfo) (n : Nat) (a b : String) :
    (((mkHeaders f ti n a b).map Prod.fst).contains "X-Track-Duration") = truthy ti.duration := by
  unfold mkHeaders
  cases h1 : truthy ti.album <;> cases h2 : truthy ti.duration <;>
    simp [h1, h2, List.contains]


/-! ### Lemmas about the format-attempt loop -/

lemma runA_nil (env : Nat → AttemptOutcome) (od : String) (i : Nat) (dir : List DlFile) :
    runAttempts env od [] i dir =
      ⟨.error (.otherExc "All format attempts failed - no file downloaded"), [], dir⟩ := rfl

lemma runA_completes_some (env : Nat → AttemptOutcome) (od : String) (i : Nat)
    (newFiles : List DlFile) (file : DlFile) (f : String) (rest : List String)
    (dir : List DlFile)
    (henv : env i = .completes newFiles)
    (hfind : findAudio audio_extensions (dir ++ newFiles) = some file) :
    runAttempts env od (f :: rest) i dir =
      ⟨.ok (mkSuccessResult od file), [⟨f, dir⟩], dir ++ newFiles⟩ := by
  simp only [runAttempts, henv, hfind]

lemma runA_completes_none (env : Nat → AttemptOutcome) (od : String) (i : Nat)
    (newFiles : List DlFile) (f : String) (rest : List String) (dir : List DlFile)
    (henv : env i = .completes newFiles)
    (hfind : findAudio audio_extensions (dir ++ newFiles) = none) :
    runAttempts env od (f :: rest) i dir =
      ⟨(runAttempts env od rest (i + 1) (dir ++ newFiles)).res,
       ⟨f, dir⟩ :: (runAttempts env od rest (i + 1) (dir ++ newFiles)).trace,
       (runAttempts env od rest (i + 1) (dir ++ newFiles)).dirAfter⟩ := by
  simp only [runAttempts, henv, hfind]

lemma runA_raises_nil (env : Nat → AttemptOutcome) (od : String) (i : Nat)
    (e0 : DlExc) (nf : List DlFile) (f : String) (dir : List DlFile)
    (henv : env i = .raises e0 nf) :
    runAttempts env od [f] i dir = ⟨.error e0, [⟨f, dir⟩], []⟩ := by
  simp only [runAttempts, henv, List.isEmpty_nil, if_true]

lemma runA_raises_cons (env : Nat → AttemptOutcome) (od : String) (i : Nat)
    (e0 : DlExc) (nf : List DlFile) (f : String) (rest : List String) (dir : List DlFile)
    (henv : env i = .raises e0 nf) (hne : rest.isEmpty = false) :
    runAttempts env od (f :: rest) i dir =
      ⟨(runAttempts env od rest (i + 1) []).res,
       ⟨f, dir⟩ :: (runAttempts env od rest (i + 1) []).trace,
       (runAttempts env od rest (i + 1) []).dirAfter⟩ := by
  simp only [runAttempts, henv, hne, Bool.false_eq_true, if_false]

lemma runAttempts_spec (env : Nat → AttemptOutcome) (outputDir : String) :
    ∀ (formats : List String) (i : Nat) (dir : List DlFile),
      ((runAttempts env outputDir formats i dir).trace.map AttemptTrace.fmt
        = formats.take (runAttempts env outputDir formats i dir).trace.length) ∧
      (∀ t, (runAttempts env outputDir formats i dir).trace.head? = some t →
        t.dirAtStart = dir) ∧
      (∀ j t, (runAttempts env outputDir formats i dir).trace.get? (j + 1) = some t →
        attemptRaises (env (i + j)) = true → t.dirAtStart = []) ∧
      (∀ e lf, formats ≠ [] →
        (runAttempts env outputDir formats i dir).trace.length = formats.length →
        env (i + formats.length - 1) = .raises e lf →
        (runAttempts env outputDir formats i dir).res = .error e) := by
  intro formats
  induction formats with
  | nil =>
    intro i dir
    refine ⟨rfl, by simp [runA_nil], by simp [runA_nil], by simp⟩
  | cons f rest ih =>
    intro i dir
    cases henv : env i with
    | completes newFiles =>
      cases hfind : findAudio audio_extensions (dir ++ newFiles) with
      | some file =>
        rw [runA_completes_some env outputDir i newFiles file f rest dir henv hfind]
        refine ⟨by simp, ?_, ?_, ?_⟩
        · intro t ht
          simp only [List.head?_cons, Option.some.injEq] at ht
          rw [← ht]
        · intro j t ht
          simp only [List.get?_cons_succ, List.get?_nil] at ht
          exact absurd ht (by simp)
        · intro e lf hne hlen hraise
          simp only [List.length_cons, List.length_nil, List.length_singleton] at hlen
          have hrest : rest = [] := by
            cases rest with
            | nil => rfl
            | cons a l => simp at hlen
          subst hrest
          simp only [List.length_cons, List.length_nil] at hraise
          have hi : i + (0 + 1) - 1 = i := by omega
          rw [hi, henv] at hraise
          exact absurd hraise (by simp)
      | none =>
        obtain ⟨ih1, ih2, ih3, ih4⟩ := ih (i + 1) (dir ++ newFiles)
        rw [runA_completes_none env outputDir i newFiles f rest dir henv hfind]
        refine ⟨?_, ?_, ?_, ?_⟩
        · simp only [List.map_cons, List.length_cons]
          rw [List.take_succ_cons, ih1]
        · intro t ht
          simp only [List.head?_cons, Option.some.injEq] at ht
          rw [← ht]
        · intro j t ht
          simp only [List.get?_cons_succ] at ht
          cases j with
          | zero =>
            intro hr
            rw [Nat.add_zero, henv] at hr
            simp [attemptRaises] at hr
          | succ k =>
            intro hr
            have harith : i + (k + 1) = (i + 1) + k := by omega
            rw [harith] at hr
            exact ih3 k t ht hr
        · intro e lf hne hlen hraise
          simp only [List.length_cons] at hlen
          cases hrest : rest with
          | nil =>
            subst hrest
            simp only [List.length_cons, List.length_nil] at hraise
            have hi : i + (0 + 1) - 1 = i := by omega
            rw [hi, henv] at hraise
            exact absurd hraise (by simp)
          | cons g rest2 =>
            subst hrest
            simp only [List.length_cons] at hlen
            have hlen2 : (runAttempts env outputDir (g :: rest2) (i + 1) (dir ++ newFiles)).trace.length
                = (g :: rest2).length := by
              simp only [List.length_cons]
              omega
            have hraise2 : env ((i + 1) + (g :: rest2).length - 1) = .raises e lf := by
              have harith : (i + 1) + (g :: rest2).length - 1 = i + (f :: g :: rest2).length - 1 := by
                simp only [List.length_cons]
                omega
              rw [harith]
              exact hraise
            exact ih4 e lf (by simp) hlen2 hraise2
    | raises e0 nf =>
      cases hrest : rest with
      | nil =>
        subst hrest
        rw [runA_raises_nil env outputDir i e0 nf f dir henv]
        refine ⟨by simp, ?_, ?_, ?_⟩
        · intro t ht
          simp only [List.head?_cons, Option.some.injEq] at ht
          rw [← ht]
        · intro j t ht
          simp only [List.get?_cons_succ, List.get?_nil] at ht
          exact absurd ht (by simp)
        · intro e lf hne hlen hraise
          simp only [List.length_cons, List.length_nil] at hraise
          have hi : i + (0 + 1) - 1 = i := by omega
          rw [hi, henv] at hraise
          injection hraise with h1 h2
          rw [h1]
      | cons g rest2 =>
        subst hrest
        obtain ⟨ih1, ih2, ih3, ih4⟩ := ih (i + 1) []
        rw [runA_raises_cons env outputDir i e0 nf f (g :: rest2) dir henv (by simp)]
        refine ⟨?_, ?_, ?_, ?_⟩
        · simp only [List.map_cons, List.length_cons]
          rw [List.take_succ_cons, ih1]
        · intro t ht
          simp only [List.head?_cons, Option.some.injEq] at ht
          rw [← ht]
        · intro j t ht
          simp only [List.get?_cons_succ] at ht
          cases j with
          | zero =>
            intro hr
            have hh : (runAttempts env outputDir (g :: rest2) (i + 1) []).trace.head? = some t := by
              rw [← List.get?_zero]
              exact ht
            exact ih2 t hh
          | succ k =>
            intro hr
            have harith : i + (k + 1) = (i + 1) + k := by omega
            rw [harith] at hr
            exact ih3 k t ht hr
        · intro e lf hne hlen hraise
          simp only [List.length_cons] at hlen
          have hlen2 : (runAttempts env outputDir (g :: rest2) (i + 1) []).trace.length
              = (g :: rest2).length := by
            simp only [List.length_cons]
            omega
          have hraise2 : env ((i + 1) + (g :: rest2).length - 1) = .raises e lf := by
            have harith : (i + 1) + (g :: rest2).length - 1 = i + (f :: g :: rest2).length - 1 := by
              simp only [List.length_cons]
              omega
            rw [harith]
            exact hraise
          exact ih4 e lf (by simp) hlen2 hraise2



/-! ### Lemmas about the consistent-naming rotation -/

lemma fsRename_dst (st : FS) (src dst : String) : fsRename st src dst dst = st src := by
  simp [fsRename]

lemma fsRename_other (st : FS) (src dst n : String) (h1 : n ≠ dst) (h2 : n ≠ src) :
    fsRename st src dst n = st n := by
  simp [fsRename, h1, h2]

lemma fsRemove_other (st : FS) (n m : String) (h : m ≠ n) : fsRemove st n m = st m := by
  simp [fsRemove, h]

lemma rotateLatest_other (st : FS) (ext n : String)
    (h1 : n ≠ "latest" ++ ext) (h2 : n ≠ "previous" ++ ext) :
    rotateLatest st ext n = st n := by
  unfold rotateLatest
  by_cases hl : (st ("latest" ++ ext)).isSome
  · rw [if_pos hl, fsRename_other _ _ _ _ h2 h1]
    by_cases hp : (st ("previous" ++ ext)).isSome
    · rw [if_pos hp, fsRemove_other _ _ _ h2]
    · rw [if_neg hp]
  · rw [if_neg hl]

lemma rotateLatest_sets (st : FS) (ext : String)
    (hne : ("latest" ++ ext : String) ≠ "previous" ++ ext)
    (hl : (st ("latest" ++ ext)).isSome) :
    rotateLatest st ext ("previous" ++ ext) = st ("latest" ++ ext) := by
  unfold rotateLatest
  rw [if_pos hl, fsRename_dst]
  by_cases hp : (st ("previous" ++ ext)).isSome
  · rw [if_pos hp, fsRemove_other _ _ _ hne]
  · rw [if_neg hp]

lemma foldl_rotate_other : ∀ (exts : List String) (st : FS) (n : String),
    (∀ a ∈ exts, n ≠ "latest" ++ a ∧ n ≠ "previous" ++ a) →
    exts.foldl rotateLatest st n = st n := by
  intro exts
  induction exts with
  | nil => intro st n _; rfl
  | cons a rest ih =>
    intro st n h
    simp only [List.foldl_cons]
    rw [ih (rotateLatest st a) n (fun b hb => h b (List.mem_cons_of_mem a hb))]
    exact rotateLatest_other st a n (h a (List.mem_cons_self a rest)).1
      (h a (List.mem_cons_self a rest)).2

lemma foldl_rotate_sets : ∀ (exts : List String) (st : FS) (ext : String),
    ext ∈ exts →
    (∀ a ∈ exts, ("latest" ++ a : String) ≠ "previous" ++ a) →
    List.Pairwise (fun a b =>
      ("latest" ++ a : String) ≠ "latest" ++ b ∧ ("latest" ++ a : String) ≠ "previous" ++ b ∧
      ("previous" ++ a : String) ≠ "latest" ++ b ∧
      ("previous" ++ a : String) ≠ "previous" ++ b) exts →
    (st ("latest" ++ ext)).isSome = true →
    exts.foldl rotateLatest st ("previous" ++ ext) = st ("latest" ++ ext) := by
  intro exts
  induction exts with
  | nil => intro st ext h; simp at h
  | cons a rest ih =>
    intro st ext hmem hok hpw hl
    simp only [List.foldl_cons]
    rcases List.mem_cons.mp hmem with heq | hmem2
    · subst heq
      rw [foldl_rotate_other rest (rotateLatest st ext) ("previous" ++ ext) ?_]
      · exact rotateLatest_sets st ext (hok ext (List.mem_cons_self ext rest)) hl
      · intro b hb
        have hr := (List.pairwise_cons.mp hpw).1 b hb
        exact ⟨hr.2.2.1, hr.2.2.2⟩
    · have hr := (List.pairwise_cons.mp hpw).1 ext hmem2
      have hlat : rotateLatest st a ("latest" ++ ext) = st ("latest" ++ ext) :=
        rotateLatest_other st a _ (Ne.symm hr.1) (Ne.symm hr.2.2.1)
      rw [ih (rotateLatest st a) ext hmem2 (fun b hb => hok b (List.mem_cons_of_mem a hb))
        (List.pairwise_cons.mp hpw).2 (by rw [hlat]; exact hl)]
      exact hlat



/-- C1: for every run of the download endpoint pipeline that reaches workspace
creation — whether it ends in success, a handled failure, or an uncaught
exception — the temporary workspace directory created for that request does
not exist after the run completes (release is unconditional on every exit
path). -/
theorem c1_workspace_released (env : PipelineEnv)
    (h : (runPipeline env).2.workspaceCreated = true) :
    (runPipeline env).2.tempDirExists = false := by
  rw [runPipeline_snd] at h ⊢
  by_cases hc : ((pipelineBody env).2.workspaceCreated && (pipelineBody env).2.tempDirExists) = true
  · rw [if_pos hc]
  · rw [if_neg hc] at h ⊢
    cases hb : (pipelineBody env).2.tempDirExists
    · rfl
    · exact absurd (by simp [h, hb]) hc

/-- C2: the engine performs exactly one fallback pass when (and only when) the
main pass fails with a `DownloadError` whose text contains `"403"` or
`"Forbidden"`; any other failure class (extractor error, timeout, unexpected
exception) performs none, and when the fallback pass itself fails the overall
result is a failure. -/
theorem c2_forbidden_fallback (env : DlEnv) (od : String) (dir : List DlFile) :
    (download_audio env od dir).2 = (if isForbiddenFailure env od dir = true then 1 else 0) ∧
    (isForbiddenFailure env od dir = true →
      fallbackRun env od (runAttempts env.attempts od format_attempts 0 dir).dirAfter = none →
      (download_audio env od dir).1.success = false) := by
  unfold download_audio isForbiddenFailure
  cases ht : env.timedOut
  · simp only [Bool.false_eq_true, if_false, Bool.not_false, Bool.true_and]
    rcases hres : (runAttempts env.attempts od format_attempts 0 dir).res with ex | r
    · cases ex with
      | downloadError m =>
        cases hc : (pyContains m "403" || pyContains m "Forbidden")
        · simp [hres, hc]
        · rcases hf : fallbackRun env od (runAttempts env.attempts od format_attempts 0 dir).dirAfter
            with _ | r
          · simp [hres, hc, hf]
          · simp [hres, hc, hf]
      | extractorError m => simp [hres]
      | otherExc m => simp [hres]
    · simp [hres]
  · simp [ht]

/-- C5: for every request whose caller-supplied title and artist are judged
complete (neither equal to the sentinels `"Unknown"` / `"Unknown Artist"`),
the pipeline performs zero resolver network calls and the resulting
`TrackInfo` carries the caller's title and artist verbatim, the artist string
split at commas into an ordered, stripped artist list. -/
theorem c5_caller_metadata (env : PipelineEnv) (h : hasMetadata env.req = true) :
    (runPipeline env).2.resolveCalls = 0 ∧
      (runPipeline env).2.trackInfo = some
        { name := get_track_name env.req
        , artists := callerArtists env.req
        , search_query := get_search_query env.req
        , album := env.req.album
        , duration := env.req.duration } := by
  have hres : resolveTrack env = (some (callerTrackInfo env.req), 0) := by
    simp [resolveTrack, h]
  have hv : (!truthy (get_spotify_url env.req) && !hasMetadata env.req) = false := by
    simp [h]
  have htr := pipelineBody_trace_resolved env (callerTrackInfo env.req) 0 hv hres
  rw [runPipeline_snd]
  rw [htr]
  simp [callerTrackInfo]

/-- C6: the download engine tries its format preferences in order
most-preferred first (the trace of attempted formats is a prefix of
`format_attempts`); after any attempt that raises, the next attempt starts
with an empty workspace (every leftover file was deleted); and when the last
preference is the one that raises, the whole multi-attempt sequence fails with
that exception. -/
theorem c6_format_loop (env : Nat → AttemptOutcome) (outputDir : String) (dir : List DlFile) :
    ((runAttempts env outputDir format_attempts 0 dir).trace.map AttemptTrace.fmt
      = format_attempts.take (runAttempts env outputDir format_attempts 0 dir).trace.length) ∧
    (∀ j t, (runAttempts env outputDir format_attempts 0 dir).trace.get? (j + 1) = some t →
      attemptRaises (env j) = true → t.dirAtStart = []) ∧
    (∀ e lf,
      (runAttempts env outputDir format_attempts 0 dir).trace.length = format_attempts.length →
      env (format_attempts.length - 1) = .raises e lf →
      (runAttempts env outputDir format_attempts 0 dir).res = .error e) := by
  obtain ⟨p1, _, p3, p4⟩ := runAttempts_spec env outputDir format_attempts 0 dir
  refine ⟨p1, ?_, ?_⟩
  · intro j t ht hr
    exact p3 j t ht (by rw [Nat.zero_add]; exact hr)
  · intro e lf hlen hraise
    exact p4 e lf (by simp [format_attempts]) hlen (by rw [Nat.zero_add]; exact hraise)

/-- The status code of an endpoint outcome (success responses are 200). -/
def httpStatusOf : HttpResult → Nat
  | .ok _ => 200
  | .err s _ => s

/-- A fully valid request environment whose download succeeds: caller metadata
`"Song"` / `"Artist"`, one completed attempt materializing `song.m4a`. -/
def envOkMeta : PipelineEnv :=
  { req := { title := some "Song", artist := some "Artist" }
  , apiData := none
  , oembedTitle := none
  , dlEnv :=
    { timedOut := false
    , attempts := fun _ => .completes [⟨"song.m4a", 5⟩]
    , fallbackTimedOut := false
    , fallbackOutcome := .completes [] }
  , tempDirName := "/tmp/song_dl_req_1_x"
  , requestId := "req_1"
  , elapsed := "1.00s"
  , fileStillExists := true
  , readRaises := none
  , fileLen := 5 }

/-- The same environment with the overall download timeout fired. -/
def envTimeout : PipelineEnv :=
  { envOkMeta with dlEnv := { envOkMeta.dlEnv with timedOut := true } }

/-- C7, counterexample: on a valid request whose download hits the overall
120-second timeout, the pipeline returns status 500 (the generic
download-failure status), not the gateway-timeout status 504 the claim
states — `download_audio` swallows the `asyncio.TimeoutError` into a failure
result, so the endpoint's 504 handler never sees it. -/
theorem c7_counterexample :
    httpStatusOf (runPipeline envTimeout).1 = 500 ∧
      httpStatusOf (runPipeline envTimeout).1 ≠ 504 ∧
      (runPipeline envTimeout).1 =
        .err 500 "Download failed: Download timed out after 120 seconds" := by
  refine ⟨by decide, by decide, by decide⟩

/-- C7, amended: for every request that passes validation and resolution and
whose download exceeds the overall wall-clock timeout, the pipeline returns
the server-error status 500 with detail
`"Download failed: Download timed out after 120 seconds"`; the gateway-timeout
status (504) is reserved for an `asyncio.TimeoutError` escaping the pipeline
body, which the download path never produces. -/
theorem c7_amended (env : PipelineEnv)
    (hto : env.dlEnv.timedOut = true)
    (hv : (truthy (get_spotify_url env.req) || hasMetadata env.req) = true)
    (hres : (resolveTrack env).1.isSome = true) :
    (runPipeline env).1 = .err 500 "Download failed: Download timed out after 120 seconds" := by
  rcases hr : resolveTrack env with ⟨oti, calls⟩
  rcases oti with _ | ti
  · rw [hr] at hres
    simp at hres
  · simp only [runPipeline, pipelineBody, hr, download_audio, hto, if_true]
    rcases hv2 : truthy (get_spotify_url env.req) <;> simp_all

/-- C8: every request carrying neither a truthy URL/track-id nor complete
title+artist metadata is rejected with the client-error status 400 before the
workspace is created: no workspace, no resolver network call, no track record,
no side effects. -/
theorem c8_reject_before_workspace (env : PipelineEnv)
    (h1 : truthy (get_spotify_url env.req) = false)
    (h2 : hasMetadata env.req = false) :
    (runPipeline env).1 = .err 400
      "Either Spotify URL/Track ID or complete track metadata (title + artist) is required" ∧
      (runPipeline env).2 = ⟨false, false, 0, none⟩ := by
  simp [runPipeline, pipelineBody, h1, h2]

/-- C9: in consistent-naming mode, after a download materializes the fixed
temporary file `temp_download<e>`, the rotation renames every existing
`latest<ext>` to `previous<ext>` (replacing any prior `previous<ext>`) and the
temporary file becomes `latest<e>`: afterwards each `previous<ext>` holds the
old `latest<ext>` content and `latest<e>` holds the new content. -/
theorem c9_consistent_naming (st : FS) (e : String) (c : Nat)
    (he : e ∈ simpleAudioExts)
    (htemp : st ("temp_download" ++ e) = some c) :
    (∀ ext ∈ simpleAudioExts, ∀ v, st ("latest" ++ ext) = some v →
      consistentRename st ("temp_download" ++ e) ("previous" ++ ext) = some v) ∧
    consistentRename st ("temp_download" ++ e) ("latest" ++ e) = some c := by
  have hsuf : pySuffix ("temp_download" ++ e) = e :=
    (by decide : ∀ x ∈ simpleAudioExts, pySuffix ("temp_download" ++ x) = x) e he
  have hok : ∀ a ∈ simpleAudioExts, ("latest" ++ a : String) ≠ "previous" ++ a := by decide
  have hpw : List.Pairwise (fun a b =>
      ("latest" ++ a : String) ≠ "latest" ++ b ∧ ("latest" ++ a : String) ≠ "previous" ++ b ∧
      ("previous" ++ a : String) ≠ "latest" ++ b ∧
      ("previous" ++ a : String) ≠ "previous" ++ b) simpleAudioExts := by decide
  have h1 : ∀ x ∈ simpleAudioExts, ∀ y ∈ simpleAudioExts,
      ("previous" ++ x : String) ≠ "latest" ++ y := by decide
  have h2 : ∀ x ∈ simpleAudioExts, ∀ y ∈ simpleAudioExts,
      ("previous" ++ x : String) ≠ "temp_download" ++ y := by decide
  have h3 : ∀ x ∈ simpleAudioExts, ∀ y ∈ simpleAudioExts,
      ("temp_download" ++ x : String) ≠ "latest" ++ y := by decide
  have h4 : ∀ x ∈ simpleAudioExts, ∀ y ∈ simpleAudioExts,
      ("temp_download" ++ x : String) ≠ "previous" ++ y := by decide
  constructor
  · intro ext hext v hv
    unfold consistentRename
    rw [hsuf]
    rw [fsRename_other _ _ _ _ (h1 ext hext e he) (h2 ext hext e he)]
    rw [foldl_rotate_sets simpleAudioExts st ext hext hok hpw (by rw [hv]; rfl)]
    exact hv
  · unfold consistentRename
    rw [hsuf]
    rw [fsRename_dst]
    rw [foldl_rotate_other simpleAudioExts st ("temp_download" ++ e)
      (fun a ha => ⟨h3 e he a ha, h4 e he a ha⟩)]
    exact htemp

/-- C10: every `TrackInfo` produced by external resolution — the primary API
source or the oEmbed fallback — has `album = none` and `duration = none`;
consequently the `X-Track-Album` / `X-Track-Duration` response headers appear
only when the caller supplied a truthy album / duration in the request. -/
theorem c10_album_duration :
    (∀ net ti, extract_from_api net = some ti → ti.album = none ∧ ti.duration = none) ∧
    (∀ nt u ti, extract_from_oembed nt u = some ti → ti.album = none ∧ ti.duration = none) ∧
    (∀ env resp, (runPipeline env).1 = .ok resp →
      (((resp.headers.map Prod.fst).contains "X-Track-Album") = true →
        truthy env.req.album = true) ∧
      (((resp.headers.map Prod.fst).contains "X-Track-Duration") = true →
        truthy env.req.duration = true)) := by
  refine ⟨extract_from_api_no_album, extract_from_oembed_no_album, ?_⟩
  intro env resp h
  rw [runPipeline_fst] at h
  rcases hb : (pipelineBody env).1 with ex | r
  · rw [hb] at h
    cases ex <;> simp at h
  · rw [hb] at h
    injection h with hr
    obtain ⟨ti, calls, hres, hh⟩ := pipelineBody_ok_inv env r hb
    rw [← hr, hh, mkHeaders_album, mkHeaders_duration]
    rcases resolveTrack_fields env ti calls hres with ⟨ha, hd⟩ | ⟨ha, hd⟩
    · rw [ha, hd]
      exact ⟨fun x => x, fun x => x⟩
    · rw [ha, hd]
      exact ⟨fun x => by simp [truthy] at x, fun x => by simp [truthy] at x⟩


/-! ### Witnesses: each hypothesis-bearing claim theorem applied at a concrete
input. -/

/-- Witness for C1 at `envOkMeta`: the workspace is created and is gone after
the run. -/
theorem c1_witness :
    (runPipeline envOkMeta).2.workspaceCreated = true ∧
      (runPipeline envOkMeta).2.tempDirExists = false :=
  ⟨by decide, c1_workspace_released envOkMeta (by decide)⟩

/-- The engine environment of a run whose every attempt raises, the last one
with a forbidden (403) download error, and whose fallback pass also fails. -/
def dl403env : DlEnv :=
  { timedOut := false
  , attempts := fun _ => .raises (.downloadError "HTTP Error 403: Forbidden") []
  , fallbackTimedOut := false
  , fallbackOutcome := .raises (.otherExc "fb") [] }

/-- Witness for C2 at `dl403env`: exactly one fallback pass, final failure. -/
theorem c2_witness :
    (download_audio dl403env "/tmp/ws" []).2 = 1 ∧
      (download_audio dl403env "/tmp/ws" []).1.success = false := by
  have h := c2_forbidden_fallback dl403env "/tmp/ws" []
  constructor
  · rw [h.1]
    decide
  · exact h.2 (by decide) (by decide)

/-- Witness for C5 at `envOkMeta`: no resolver network call, caller data
carried verbatim. -/
theorem c5_witness :
    (runPipeline envOkMeta).2.resolveCalls = 0 ∧
      (runPipeline envOkMeta).2.trackInfo = some
        { name := get_track_name envOkMeta.req
        , artists := callerArtists envOkMeta.req
        , search_query := get_search_query envOkMeta.req
        , album := envOkMeta.req.album
        , duration := envOkMeta.req.duration } :=
  c5_caller_metadata envOkMeta (by decide)

/-- An attempt environment whose first attempt raises leaving a file behind
and whose last attempt raises a forbidden download error. -/
def c6env : Nat → AttemptOutcome := fun i =>
  if i = 0 then .raises (.downloadError "f0") [⟨"junk.m4a", 3⟩]
  else if i = 1 then .raises (.extractorError "f1") []
  else .raises (.downloadError "HTTP Error 403: Forbidden") []

/-- Witness for C6 at `c6env`: the second attempt starts with an empty
workspace after the first raised, and the exception of the failing last
attempt is the loop's result. -/
theorem c6_witness :
    ((runAttempts c6env "/tmp/ws" format_attempts 0 [⟨"old.mp3", 7⟩]).trace.get? 1).map
      AttemptTrace.dirAtStart = some [] ∧
    (runAttempts c6env "/tmp/ws" format_attempts 0 [⟨"old.mp3", 7⟩]).res =
      .error (.downloadError "HTTP Error 403: Forbidden") := by
  have h := c6_format_loop c6env "/tmp/ws" [⟨"old.mp3", 7⟩]
  constructor
  · have hget : (runAttempts c6env "/tmp/ws" format_attempts 0 [⟨"old.mp3", 7⟩]).trace.get? 1
        = some ⟨"bestaudio/best", []⟩ := by decide
    have h2 := h.2.1 0 ⟨"bestaudio/best", []⟩ hget (by decide)
    rw [hget]
    exact congrArg some h2
  · exact h.2.2 (.downloadError "HTTP Error 403: Forbidden") [] (by decide) (by decide)

/-- Witness for C7 (amended) at `envTimeout`. -/
theorem c7_witness :
    (runPipeline envTimeout).1 =
      .err 500 "Download failed: Download timed out after 120 seconds" :=
  c7_amended envTimeout (by decide) (by decide) (by decide)

/-- The environment of a request with neither URL nor metadata. -/
def envEmpty : PipelineEnv := { envOkMeta with req := {} }

/-- Witness for C8 at `envEmpty`: status 400 and a fully untouched trace. -/
theorem c8_witness :
    (runPipeline envEmpty).1 = .err 400
      "Either Spotify URL/Track ID or complete track metadata (title + artist) is required" ∧
      (runPipeline envEmpty).2 = ⟨false, false, 0, none⟩ :=
  c8_reject_before_workspace envEmpty (by decide) (by decide)

/-- A workspace holding an old `latest.m4a` (content 1), an old
`previous.m4a` (content 0) and the fresh `temp_download.m4a` (content 2). -/
def st9 : FS := fun n =>
  if n = "latest.m4a" then some 1
  else if n = "previous.m4a" then some 0
  else if n = "temp_download.m4a" then some 2
  else none

/-- Witness for C9 at `st9`: the old latest content rotates to
`previous.m4a` and the new content lands in `latest.m4a`. -/
theorem c9_witness :
    consistentRename st9 ("temp_download" ++ ".m4a") ("previous" ++ ".m4a") = some 1 ∧
      consistentRename st9 ("temp_download" ++ ".m4a") ("latest" ++ ".m4a") = some 2 := by
  have h := c9_consistent_naming st9 ".m4a" 2 (by decide) (by decide)
  exact ⟨h.1 ".m4a" (by decide) 1 (by decide), h.2⟩

/-- A valid request that also supplies album and duration. -/
def envAlb : PipelineEnv :=
  { envOkMeta with req :=
    { title := some "Song", artist := some "Artist"
    , album := some "Alb", duration := some "3:00" } }

/-- The success response of a pipeline run (dummy on failure). -/
def respOf (env : PipelineEnv) : SuccessResp :=
  match (runPipeline env).1 with
  | .ok r => r
  | .err _ _ => ⟨[], "", 0⟩

/-- Witness for C10: the album header on `envAlb`'s successful run traces back
to the caller-supplied album, and a concrete API-resolved `TrackInfo` carries
no album. -/
theorem c10_witness :
    truthy envAlb.req.album = true ∧
      (⟨"N", ["A"], "Q", none, none⟩ : TrackInfo).album = none := by
  have h := c10_album_duration
  refine ⟨(h.2.2 envAlb (respOf envAlb) (by decide)).1 (by decide), ?_⟩
  exact (h.1 (some { name := some "N", artists := some ["A"], searchQuery := some "Q" })
    ⟨"N", ["A"], "Q", none, none⟩ (by decide)).1

end SongDL
